import Mathlib

/-!
Verification of the `kiro-momentum` pomodoro timer engine.

Shallow embedding of the interval-timer subsystem:

* `src/hooks/usePomodoro.ts` — the timer state machine (`usePomodoro` hook):
  recovery initializer, the five operations (`start`, `pause`, `resume`,
  `reset`, `skip`) and the scheduler-tick body;
* `src/services/StorageService.ts` — the pomodoro-related persistence
  methods (`get/setPomodoroConfig`, `get/setPomodoroEndTime`,
  `get/setPomodoroPhase`, `get/setPomodoroTotalSeconds`,
  `clearPomodoroTimer`).

Wall-clock times (`Date.now()`, `endTime`) are milliseconds as `Nat`.
JavaScript exceptions are modelled with `Except String`; a storage method
whose `catch` block only logs (every pomodoro setter except
`setPomodoroConfig`) is a total function.  JavaScript truthiness tests on
the values read back from storage (`if (savedEndTime && savedPhase &&
savedTotalSeconds)`) are modelled explicitly: a number is truthy iff it is
nonzero, a present phase string (`work`/`break`/`idle`) is always truthy.
-/

/-- Timer phase, the TS union `'work' | 'break' | 'idle'` from `src/types`. -/
inductive PomodoroPhase where
  | idle
  | work
  | «break»
deriving DecidableEq, Repr

/-- The TS `PomodoroConfig`: durations in minutes plus the auto-repeat flag. -/
structure PomodoroConfig where
  workDuration : Nat
  breakDuration : Nat
  autoRepeat : Bool
deriving DecidableEq, Repr

/-- The TS `PomodoroState` managed by `usePomodoro` (`useState` value). -/
structure PomodoroState where
  isActive : Bool
  isPaused : Bool
  phase : PomodoroPhase
  remainingSeconds : Nat
  totalSeconds : Nat
  endTime : Option Nat
  config : PomodoroConfig
deriving DecidableEq, Repr

/-- The durable store as seen through `StorageService`: the four pomodoro
keys of `localStorage` plus whether `isStorageAvailable()` holds.  `none`
means the key is absent. -/
structure Storage where
  available : Bool
  pomodoroConfig : Option PomodoroConfig
  pomodoroEndTime : Option Nat
  pomodoroPhase : Option PomodoroPhase
  pomodoroTotalSeconds : Option Nat
deriving DecidableEq, Repr

namespace StorageService

/-- TS `StorageService.getPomodoroConfig`: `null` when the store is
unavailable, the key is absent or the JSON fails to parse (parse errors
are caught and return `null`). -/
def getPomodoroConfig (st : Storage) : Option PomodoroConfig :=
  if st.available then st.pomodoroConfig else none

/-- TS `StorageService.getPomodoroEndTime`: `null` when unavailable or
absent; errors are caught and return `null`. -/
def getPomodoroEndTime (st : Storage) : Option Nat :=
  if st.available then st.pomodoroEndTime else none

/-- TS `StorageService.getPomodoroPhase`: `null` when unavailable, absent or
not one of `work`/`break`/`idle`. -/
def getPomodoroPhase (st : Storage) : Option PomodoroPhase :=
  if st.available then st.pomodoroPhase else none

/-- TS `StorageService.getPomodoroTotalSeconds`: `null` when unavailable or
absent; errors are caught and return `null`. -/
def getPomodoroTotalSeconds (st : Storage) : Option Nat :=
  if st.available then st.pomodoroTotalSeconds else none

/-- TS `StorageService.setPomodoroConfig`: **throws** `'Storage is not
available'` when `isStorageAvailable()` is false (unlike the other
pomodoro setters, which return early); otherwise writes the config. -/
def setPomodoroConfig (st : Storage) (config : PomodoroConfig) :
    Except String Storage :=
  if st.available then .ok { st with pomodoroConfig := some config }
  else .error ("Storage is not available")

/-- TS `StorageService.setPomodoroEndTime`: returns early when unavailable;
`null` removes the key, a number writes it; its `catch` only logs, so the
function never throws and is total. -/
def setPomodoroEndTime (st : Storage) (endTime : Option Nat) : Storage :=
  if st.available then { st with pomodoroEndTime := endTime } else st

/-- TS `StorageService.setPomodoroPhase`: returns early when unavailable;
`null` removes, otherwise writes; never throws. -/
def setPomodoroPhase (st : Storage) (phase : Option PomodoroPhase) : Storage :=
  if st.available then { st with pomodoroPhase := phase } else st

/-- TS `StorageService.setPomodoroTotalSeconds`: returns early when
unavailable; `null` removes, otherwise writes; never throws. -/
def setPomodoroTotalSeconds (st : Storage) (totalSeconds : Option Nat) : Storage :=
  if st.available then { st with pomodoroTotalSeconds := totalSeconds } else st

/-- TS `StorageService.clearPomodoroTimer`: returns early when unavailable;
removes the endTime, phase and totalSeconds keys (the config key is
untouched); never throws. -/
def clearPomodoroTimer (st : Storage) : Storage :=
  if st.available then
    { st with pomodoroEndTime := none, pomodoroPhase := none,
              pomodoroTotalSeconds := none }
  else st

end StorageService

/-- Constant `DEFAULT_CONFIG` from `usePomodoro.ts`. -/
def DEFAULT_CONFIG : PomodoroConfig :=
  { workDuration := 25, breakDuration := 5, autoRepeat := false }

/-- TS `Math.ceil(remainingMs / 1000)` on a nonnegative number of
milliseconds. -/
def ceilSeconds (remainingMs : Nat) : Nat :=
  (remainingMs + 999) / 1000

/-- JS truthiness of a `number | null`: `0` and `null` are falsy. -/
def truthyNat : Option Nat → Bool
  | none => false
  | some n => n ≠ 0

/-- JS truthiness of a phase string or `null`: every present phase is a
nonempty string, hence truthy. -/
def truthyPhase : Option PomodoroPhase → Bool
  | none => false
  | some _ => true

/-- The idle `PomodoroState` returned by the `useState` initializer when
no live record is recovered. -/
def idleState (config : PomodoroConfig) : PomodoroState :=
  { isActive := false, isPaused := false, phase := .idle,
    remainingSeconds := 0, totalSeconds := 0, endTime := none,
    config := config }

/-- The `useState` initializer of `usePomodoro` (engine construction):
reads the four durable fields, recovers an active state when an unexpired
`endTime` exists, clears the record when it has expired, and otherwise
starts idle.  Returns the initial state together with the store (which the
expired branch mutates via `clearPomodoroTimer`). -/
def recover (st : Storage) (now : Nat) : PomodoroState × Storage :=
  let savedConfig := StorageService.getPomodoroConfig st
  let savedEndTime := StorageService.getPomodoroEndTime st
  let savedPhase := StorageService.getPomodoroPhase st
  let savedTotalSeconds := StorageService.getPomodoroTotalSeconds st
  let config := savedConfig.getD DEFAULT_CONFIG
  if truthyNat savedEndTime && truthyPhase savedPhase &&
      truthyNat savedTotalSeconds then
    let endT := savedEndTime.getD 0
    if now < endT then
      ({ isActive := true, isPaused := false,
         phase := savedPhase.getD .idle,
         remainingSeconds := ceilSeconds (endT - now),
         totalSeconds := savedTotalSeconds.getD 0,
         endTime := some endT, config := config }, st)
    else
      (idleState config, StorageService.clearPomodoroTimer st)
  else
    (idleState config, st)

/-- Operation `start(config)`: computes `totalSeconds = workDuration*60`,
`endTime = now + totalSeconds*1000`, persists config + all durable fields
and replaces the state wholesale.  `setPomodoroConfig` is called first and
can throw, in which case nothing is persisted and the state is not set. -/
def start (config : PomodoroConfig) (now : Nat) (st : Storage) :
    Except String (PomodoroState × Storage) := do
  let totalSeconds := config.workDuration * 60
  let endTime := now + totalSeconds * 1000
  let st1 ← StorageService.setPomodoroConfig st config
  let st2 := StorageService.setPomodoroEndTime st1 (some endTime)
  let st3 := StorageService.setPomodoroPhase st2 (some .work)
  let st4 := StorageService.setPomodoroTotalSeconds st3 (some totalSeconds)
  pure ({ isActive := true, isPaused := false, phase := .work,
          remainingSeconds := totalSeconds, totalSeconds := totalSeconds,
          endTime := some endTime, config := config }, st4)

/-- Operation `pause()`: no-op unless `isActive && !isPaused`; clears the durable
record (`clearPomodoroTimer`) and sets `isPaused=true, endTime=null`,
leaving `remainingSeconds` untouched.  Reads no clock. -/
def pause (s : PomodoroState) (st : Storage) : PomodoroState × Storage :=
  if !s.isActive || s.isPaused then (s, st)
  else
    ({ s with isPaused := true, endTime := none },
     StorageService.clearPomodoroTimer st)

/-- Operation `resume()`: no-op unless `isActive && isPaused`; computes
`endTime = now + remainingSeconds*1000`, re-persists endTime, phase and
totalSeconds and resumes counting. -/
def resume (now : Nat) (s : PomodoroState) (st : Storage) :
    PomodoroState × Storage :=
  if !s.isActive || !s.isPaused then (s, st)
  else
    let endTime := now + s.remainingSeconds * 1000
    let st1 := StorageService.setPomodoroEndTime st (some endTime)
    let st2 := StorageService.setPomodoroPhase st1 (some s.phase)
    let st3 := StorageService.setPomodoroTotalSeconds st2 (some s.totalSeconds)
    ({ s with isPaused := false, endTime := some endTime }, st3)

/-- Operation `reset()`: clears the durable record and sets `isActive=false,
isPaused=false, phase=idle, remainingSeconds=0, endTime=null`; the spread
`...prevState` leaves `totalSeconds` and `config` unchanged. -/
def reset (s : PomodoroState) (st : Storage) : PomodoroState × Storage :=
  ({ s with isActive := false, isPaused := false, phase := .idle,
            remainingSeconds := 0, endTime := none },
   StorageService.clearPomodoroTimer st)

/-- The phase-advance target: `prevState.phase === 'work' ? 'break' :
'work'`. -/
def nextPhase (p : PomodoroPhase) : PomodoroPhase :=
  if p = .work then .«break» else .work

/-- The phase-advance duration in minutes: `next === 'work' ?
workDuration : breakDuration`. -/
def nextDuration (next : PomodoroPhase) (config : PomodoroConfig) : Nat :=
  if next = .work then config.workDuration else config.breakDuration

/-- Operation `skip()`: no-op unless `isActive`; performs the phase-advance
computation immediately (ignoring `autoRepeat`), persists the new durable
fields and resumes counting (`isPaused=false`) with a fresh `endTime`.
It contains no call to the completion callback. -/
def skip (now : Nat) (s : PomodoroState) (st : Storage) :
    PomodoroState × Storage :=
  if !s.isActive then (s, st)
  else
    let next := nextPhase s.phase
    let nextTotalSeconds := nextDuration next s.config * 60
    let nextEndTime := now + nextTotalSeconds * 1000
    let st1 := StorageService.setPomodoroEndTime st (some nextEndTime)
    let st2 := StorageService.setPomodoroPhase st1 (some next)
    let st3 := StorageService.setPomodoroTotalSeconds st2 (some nextTotalSeconds)
    ({ s with phase := next, remainingSeconds := nextTotalSeconds,
              totalSeconds := nextTotalSeconds, endTime := some nextEndTime,
              isPaused := false }, st3)

/-- The body of the `setInterval` callback in the tick effect.  `callback`
is `onCompleteCallbackRef.current` (`none` = `null`); the returned list
records each completion-callback invocation, carrying the phase that was
current at the moment of the call (the callback runs before the
phase-advance mutation).  On completion with `autoRepeat` the next phase
is installed and persisted; without `autoRepeat` the timer stops, the
phase becomes `idle` and the durable record is cleared (`isPaused` is
carried over by the spread).  Otherwise only `remainingSeconds` is
recomputed from `endTime`. -/
def tick (now : Nat) (callback : Option Unit) (s : PomodoroState)
    (st : Storage) : PomodoroState × Storage × List PomodoroPhase :=
  match s.endTime with
  | none => (s, st, [])
  | some endTime =>
    if endTime ≤ now then
      let events := match callback with
        | some _ => [s.phase]
        | none => []
      if s.config.autoRepeat then
        let next := nextPhase s.phase
        let nextTotalSeconds := nextDuration next s.config * 60
        let nextEndTime := now + nextTotalSeconds * 1000
        let st1 := StorageService.setPomodoroEndTime st (some nextEndTime)
        let st2 := StorageService.setPomodoroPhase st1 (some next)
        let st3 := StorageService.setPomodoroTotalSeconds st2 (some nextTotalSeconds)
        ({ s with phase := next, remainingSeconds := nextTotalSeconds,
                  totalSeconds := nextTotalSeconds,
                  endTime := some nextEndTime,
                  isActive := true, isPaused := false }, st3, events)
      else
        ({ s with isActive := false, phase := .idle, remainingSeconds := 0,
                  endTime := none },
         StorageService.clearPomodoroTimer st, events)
    else
      ({ s with remainingSeconds := ceilSeconds (endTime - now) }, st, [])

/-- The whole hook instance: React state, the durable store, and
`onCompleteCallbackRef.current` (initialized to `null` by `useRef(null)`;
the hook's return value `{state, start, pause, resume, reset, skip}`
offers no way to assign it). -/
structure Sys where
  state : PomodoroState
  storage : Storage
  callback : Option Unit
deriving DecidableEq, Repr

/-- Engine construction: run the recovery initializer and create the
callback ref as `null`. -/
def recoverSys (st : Storage) (now : Nat) : Sys :=
  ⟨(recover st now).1, (recover st now).2, none⟩

/-- The operations a caller or the scheduler can perform on a running
hook instance. -/
inductive EngineOp where
  | startOp (config : PomodoroConfig)
  | pauseOp
  | resumeOp
  | resetOp
  | skipOp
  | tickOp
deriving DecidableEq, Repr

/-- Dispatch one operation at wall-clock `now`.  The second component
lists the completion-callback invocations the operation performed; only
the tick body contains a call site of `onCompleteCallbackRef.current`, so
every other operation returns `[]`.  A thrown exception (only possible in
`start`, via `setPomodoroConfig`) leaves the hook unchanged because it
propagates before `setState` runs. -/
def runOp (op : EngineOp) (now : Nat) (sys : Sys) :
    Except String (Sys × List PomodoroPhase) :=
  match op with
  | .startOp config =>
    (start config now sys.storage).map
      (fun r => (⟨r.1, r.2, sys.callback⟩, []))
  | .pauseOp =>
    let r := pause sys.state sys.storage
    .ok (⟨r.1, r.2, sys.callback⟩, [])
  | .resumeOp =>
    let r := resume now sys.state sys.storage
    .ok (⟨r.1, r.2, sys.callback⟩, [])
  | .resetOp =>
    let r := reset sys.state sys.storage
    .ok (⟨r.1, r.2, sys.callback⟩, [])
  | .skipOp =>
    let r := skip now sys.state sys.storage
    .ok (⟨r.1, r.2, sys.callback⟩, [])
  | .tickOp =>
    let r := tick now sys.callback sys.state sys.storage
    .ok (⟨r.1, r.2.1, sys.callback⟩, r.2.2)

/-- Hook instances reachable from construction (over any initial store and
clock) by any sequence of operations and ticks. -/
inductive Reachable : Sys → Prop where
  | init (st : Storage) (now : Nat) : Reachable (recoverSys st now)
  | step {sys : Sys} (op : EngineOp) (now : Nat) {sys' : Sys}
      {ev : List PomodoroPhase} (h : Reachable sys)
      (hrun : runOp op now sys = .ok (sys', ev)) : Reachable sys'

/-! ## Concrete fixtures used by witnesses and counterexamples -/

/-- An available store with no pomodoro keys (fresh browser profile). -/
def emptyStorage : Storage :=
  { available := true, pomodoroConfig := none, pomodoroEndTime := none,
    pomodoroPhase := none, pomodoroTotalSeconds := none }

/-- An unavailable store (`isStorageAvailable()` returns false). -/
def unavailableStorage : Storage :=
  { available := false, pomodoroConfig := none, pomodoroEndTime := none,
    pomodoroPhase := none, pomodoroTotalSeconds := none }

/-- The engine state right after `start(DEFAULT_CONFIG)` at wall-clock 0:
25 minutes of work, ending at millisecond 1500000. -/
def startedState : PomodoroState :=
  { isActive := true, isPaused := false, phase := .work,
    remainingSeconds := 1500, totalSeconds := 1500,
    endTime := some 1500000, config := DEFAULT_CONFIG }

/-- The store right after `start(DEFAULT_CONFIG)` at wall-clock 0. -/
def startedStorage : Storage :=
  { available := true, pomodoroConfig := some DEFAULT_CONFIG,
    pomodoroEndTime := some 1500000, pomodoroPhase := some .work,
    pomodoroTotalSeconds := some 1500 }

theorem start_default_on_empty :
    start DEFAULT_CONFIG 0 emptyStorage = .ok (startedState, startedStorage) := by
  rfl

/-! ## C3 — expired-on-reload discard -/

/-- C3: for every persisted record (all three live-timer fields present
with their persisted, nonzero values) whose `endTime` is at or before the
wall-clock time at engine construction, construction yields the idle state
(`isActive = false`, `phase = idle`, `remainingSeconds = 0`) and clears
the durable live-timer record; no retroactive phase-advance is
synthesized (the resulting phase is `idle`, not a successor phase). -/
theorem recover_expired_discards
    (st : Storage) (now e tot : Nat) (p : PomodoroPhase)
    (havail : st.available = true)
    (hend : st.pomodoroEndTime = some e)
    (hphase : st.pomodoroPhase = some p)
    (htot : st.pomodoroTotalSeconds = some tot)
    (hepos : 0 < e) (htotpos : 0 < tot) (hexpired : e ≤ now) :
    (recover st now).1.isActive = false ∧
    (recover st now).1.phase = .idle ∧
    (recover st now).1.remainingSeconds = 0 ∧
    (recover st now).1.endTime = none ∧
    (recover st now).2.pomodoroEndTime = none ∧
    (recover st now).2.pomodoroPhase = none ∧
    (recover st now).2.pomodoroTotalSeconds = none := by
  have hnotlt : ¬ now < e := by omega
  have he0 : ¬ e = 0 := by omega
  have htot0 : ¬ tot = 0 := by omega
  simp [recover, StorageService.getPomodoroConfig,
    StorageService.getPomodoroEndTime, StorageService.getPomodoroPhase,
    StorageService.getPomodoroTotalSeconds, StorageService.clearPomodoroTimer,
    havail, hend, hphase, htot, truthyNat, truthyPhase, idleState,
    he0, htot0, hnotlt]

/-- C3 witness: a record whose `endTime` (1500000) lies 5 minutes in the
past of the construction clock (1800000) is discarded and cleared. -/
theorem recover_expired_discards_witness :
    (recover startedStorage 1800000).1.isActive = false ∧
    (recover startedStorage 1800000).1.phase = .idle ∧
    (recover startedStorage 1800000).1.remainingSeconds = 0 ∧
    (recover startedStorage 1800000).1.endTime = none ∧
    (recover startedStorage 1800000).2.pomodoroEndTime = none ∧
    (recover startedStorage 1800000).2.pomodoroPhase = none ∧
    (recover startedStorage 1800000).2.pomodoroTotalSeconds = none :=
  recover_expired_discards startedStorage 1800000 1500000 1500 .work
    rfl rfl rfl rfl (by decide) (by decide) (by decide)

/-! ## C5 — reset -/

/-- C5 counterexample: `reset()` called on the state produced by
`start(DEFAULT_CONFIG)` does **not** produce the claimed state with
`totalSeconds = 0`: the `...prevState` spread leaves `totalSeconds` at
1500. -/
theorem reset_keeps_totalSeconds_counterexample :
    (reset startedState startedStorage).1.totalSeconds = 1500 ∧
    ¬ (reset startedState startedStorage).1 =
      { isActive := false, isPaused := false, phase := .idle,
        remainingSeconds := 0, totalSeconds := 0, endTime := none,
        config := DEFAULT_CONFIG } := by
  decide

/-- C5 (amended): `reset()` unconditionally sets `isActive = false`,
`isPaused = false`, `phase = idle`, `remainingSeconds = 0`,
`endTime = null` while leaving `totalSeconds` and `config` unchanged,
clears the durable live-timer record when the store is available, never
throws, and is idempotent: resetting the already-reset engine changes
nothing. -/
theorem reset_idle_idempotent (s : PomodoroState) (st : Storage)
    (havail : st.available = true) :
    (reset s st).1.isActive = false ∧
    (reset s st).1.isPaused = false ∧
    (reset s st).1.phase = .idle ∧
    (reset s st).1.remainingSeconds = 0 ∧
    (reset s st).1.endTime = none ∧
    (reset s st).1.totalSeconds = s.totalSeconds ∧
    (reset s st).1.config = s.config ∧
    (reset s st).2.pomodoroEndTime = none ∧
    (reset s st).2.pomodoroPhase = none ∧
    (reset s st).2.pomodoroTotalSeconds = none ∧
    reset (reset s st).1 (reset s st).2 = reset s st ∧
    (∀ (now : Nat) (sys : Sys), ∃ r, runOp .resetOp now sys = .ok r) := by
  refine ⟨rfl, rfl, rfl, rfl, rfl, rfl, rfl, ?_, ?_, ?_, ?_, ?_⟩
  · simp [reset, StorageService.clearPomodoroTimer, havail]
  · simp [reset, StorageService.clearPomodoroTimer, havail]
  · simp [reset, StorageService.clearPomodoroTimer, havail]
  · simp [reset, StorageService.clearPomodoroTimer, havail]
  · intro now sys
    exact ⟨_, rfl⟩

/-- C5 witness: resetting the just-started engine lands idle with the
durable record cleared, keeps `totalSeconds = 1500`, and a second reset
is a no-op. -/
theorem reset_idle_idempotent_witness :
    (reset startedState startedStorage).1.isActive = false ∧
    (reset startedState startedStorage).1.isPaused = false ∧
    (reset startedState startedStorage).1.phase = .idle ∧
    (reset startedState startedStorage).1.remainingSeconds = 0 ∧
    (reset startedState startedStorage).1.endTime = none ∧
    (reset startedState startedStorage).1.totalSeconds = startedState.totalSeconds ∧
    (reset startedState startedStorage).1.config = startedState.config ∧
    (reset startedState startedStorage).2.pomodoroEndTime = none ∧
    (reset startedState startedStorage).2.pomodoroPhase = none ∧
    (reset startedState startedStorage).2.pomodoroTotalSeconds = none ∧
    reset (reset startedState startedStorage).1
        (reset startedState startedStorage).2 =
      reset startedState startedStorage ∧
    (∀ (now : Nat) (sys : Sys), ∃ r, runOp .resetOp now sys = .ok r) :=
  reset_idle_idempotent startedState startedStorage rfl

/-! ## C6 — what pause() leaves in the durable store -/

/-- C6 counterexample: pausing the active, unpaused engine right after
`start(DEFAULT_CONFIG)` removes the durable `phase` and `totalSeconds`
fields as well — they do not remain present as the claim states. -/
theorem pause_clears_whole_record_counterexample :
    startedState.isActive = true ∧ startedState.isPaused = false ∧
    startedStorage.pomodoroPhase = some .work ∧
    startedStorage.pomodoroTotalSeconds = some 1500 ∧
    (pause startedState startedStorage).2.pomodoroPhase = none ∧
    (pause startedState startedStorage).2.pomodoroTotalSeconds = none := by
  decide

/-- C6 (amended): for every active, unpaused state over an available
store, `pause()` calls `clearPomodoroTimer` and therefore removes the
entire durable live-timer record — `endTime`, `phase` and `totalSeconds`
alike (only the config key survives) — so a later recovery cannot
distinguish a paused mid-phase timer from nothing running: it lands on
the idle state. -/
theorem pause_clears_whole_record (s : PomodoroState) (st : Storage)
    (hact : s.isActive = true) (hnp : s.isPaused = false)
    (havail : st.available = true) :
    (pause s st).2.pomodoroEndTime = none ∧
    (pause s st).2.pomodoroPhase = none ∧
    (pause s st).2.pomodoroTotalSeconds = none ∧
    (pause s st).2.pomodoroConfig = st.pomodoroConfig ∧
    (∀ (later : Nat),
      (recover (pause s st).2 later).1.isActive = false ∧
      (recover (pause s st).2 later).1.phase = .idle) := by
  have hp : pause s st =
      ({ s with isPaused := true, endTime := none },
       StorageService.clearPomodoroTimer st) := by
    simp [pause, hact, hnp]
  rw [hp]
  refine ⟨?_, ?_, ?_, ?_, ?_⟩
  · simp [StorageService.clearPomodoroTimer, havail]
  · simp [StorageService.clearPomodoroTimer, havail]
  · simp [StorageService.clearPomodoroTimer, havail]
  · simp [StorageService.clearPomodoroTimer, havail]
  · intro later
    simp [recover, StorageService.clearPomodoroTimer, havail,
      StorageService.getPomodoroEndTime, StorageService.getPomodoroPhase,
      StorageService.getPomodoroTotalSeconds, truthyNat, truthyPhase,
      idleState]

/-- C6 witness: pausing the just-started engine clears all three durable
live-timer keys, keeps the config key, and recovery at any later clock
(here 10000) lands idle. -/
theorem pause_clears_whole_record_witness :
    (pause startedState startedStorage).2.pomodoroEndTime = none ∧
    (pause startedState startedStorage).2.pomodoroPhase = none ∧
    (pause startedState startedStorage).2.pomodoroTotalSeconds = none ∧
    (pause startedState startedStorage).2.pomodoroConfig =
      startedStorage.pomodoroConfig ∧
    (∀ (later : Nat),
      (recover (pause startedState startedStorage).2 later).1.isActive = false ∧
      (recover (pause startedState startedStorage).2 later).1.phase = .idle) :=
  pause_clears_whole_record startedState startedStorage rfl rfl rfl

/-! ## C7 — pause() and remainingSeconds -/

/-- C7 counterexample: after `start(DEFAULT_CONFIG)` at clock 0 and a
scheduler tick at clock 900 (`remainingSeconds = ceil(1499100/1000) =
1500`), pausing at clock 1000 keeps `remainingSeconds = 1500`, while the
claimed recomputation `ceil((endTime − now)/1000) = ceil(1499000/1000)`
is 1499: `pause()` does not recompute from `endTime`. -/
theorem pause_no_recompute_counterexample :
    (pause (tick 900 none startedState startedStorage).1
        startedStorage).1.remainingSeconds = 1500 ∧
    ceilSeconds (1500000 - 1000) = 1499 ∧
    ¬ (pause (tick 900 none startedState startedStorage).1
        startedStorage).1.remainingSeconds = ceilSeconds (1500000 - 1000) := by
  decide

/-- C7 (amended): for every active, unpaused state, `pause()` leaves
`remainingSeconds` unchanged — frozen at whatever value the last
scheduler tick stored — and sets `endTime = null`, `isPaused = true`
(phase and totalSeconds untouched); the recomputation
`ceil((endTime − now)/1000)` is performed by the tick, not by `pause()`;
and `pause()` is a no-op when not active or already paused. -/
theorem pause_freezes_last_tick_value (s : PomodoroState) (st : Storage) :
    (s.isActive = true → s.isPaused = false →
      (pause s st).1.remainingSeconds = s.remainingSeconds ∧
      (pause s st).1.endTime = none ∧
      (pause s st).1.isPaused = true ∧
      (pause s st).1.isActive = s.isActive ∧
      (pause s st).1.phase = s.phase ∧
      (pause s st).1.totalSeconds = s.totalSeconds) ∧
    (∀ (now e : Nat) (cb : Option Unit), s.endTime = some e → now < e →
      (tick now cb s st).1.remainingSeconds = ceilSeconds (e - now)) ∧
    (s.isActive = false ∨ s.isPaused = true → pause s st = (s, st)) := by
  refine ⟨?_, ?_, ?_⟩
  · intro hact hnp
    simp [pause, hact, hnp]
  · intro now e cb hend hlt
    have hne : ¬ e ≤ now := by omega
    simp [tick, hend, hne]
  · intro h
    rcases h with h | h <;> simp [pause, h]

/-- C7 witness: instantiated at the post-tick state from the
counterexample scenario (active, unpaused, `endTime = 1500000`),
evaluating pause at that state and the tick recomputation at clock
1000. -/
theorem pause_freezes_last_tick_value_witness :
    ((tick 900 none startedState startedStorage).1.isActive = true →
      (tick 900 none startedState startedStorage).1.isPaused = false →
      (pause (tick 900 none startedState startedStorage).1
          startedStorage).1.remainingSeconds =
        (tick 900 none startedState startedStorage).1.remainingSeconds ∧
      (pause (tick 900 none startedState startedStorage).1
          startedStorage).1.endTime = none ∧
      (pause (tick 900 none startedState startedStorage).1
          startedStorage).1.isPaused = true ∧
      (pause (tick 900 none startedState startedStorage).1
          startedStorage).1.isActive =
        (tick 900 none startedState startedStorage).1.isActive ∧
      (pause (tick 900 none startedState startedStorage).1
          startedStorage).1.phase =
        (tick 900 none startedState startedStorage).1.phase ∧
      (pause (tick 900 none startedState startedStorage).1
          startedStorage).1.totalSeconds =
        (tick 900 none startedState startedStorage).1.totalSeconds) ∧
    (∀ (now e : Nat) (cb : Option Unit),
      (tick 900 none startedState startedStorage).1.endTime = some e →
      now < e →
      (tick now cb (tick 900 none startedState startedStorage).1
          startedStorage).1.remainingSeconds = ceilSeconds (e - now)) ∧
    ((tick 900 none startedState startedStorage).1.isActive = false ∨
      (tick 900 none startedState startedStorage).1.isPaused = true →
      pause (tick 900 none startedState startedStorage).1 startedStorage =
        ((tick 900 none startedState startedStorage).1, startedStorage)) :=
  pause_freezes_last_tick_value
    (tick 900 none startedState startedStorage).1 startedStorage

/-! ## C2 — behaviour when the persistence store is unavailable -/

/-- Decide whether an engine operation threw. -/
def throwsError {α : Type} : Except String α → Bool
  | .ok _ => false
  | .error _ => true

/-- A hook instance whose timer is active and counting while the store is
unavailable (availability is re-probed on every `StorageService` call, so
it can drop after a successful start). -/
def activeUnavailSys : Sys :=
  ⟨startedState, unavailableStorage, none⟩

/-- A hook instance paused over an unavailable store. -/
def pausedUnavailSys : Sys :=
  ⟨{ startedState with isPaused := true, endTime := none },
   unavailableStorage, none⟩

/-- C2: with the store unavailable, `pause`, `resume`, `reset` and `skip`
complete without throwing (their storage calls return early), but
`start` throws `'Storage is not available'` out of
`StorageService.setPomodoroConfig`, which the hook does not catch —
exhibited on a fresh, an active and a paused engine. -/
theorem start_throws_when_store_unavailable :
    runOp (.startOp DEFAULT_CONFIG) 0 (recoverSys unavailableStorage 0) =
      .error ("Storage is not available") ∧
    runOp (.startOp DEFAULT_CONFIG) 2000 activeUnavailSys =
      .error ("Storage is not available") ∧
    throwsError (runOp .pauseOp 2000 activeUnavailSys) = false ∧
    throwsError (runOp .resumeOp 2000 pausedUnavailSys) = false ∧
    throwsError (runOp .resetOp 2000 activeUnavailSys) = false ∧
    throwsError (runOp .skipOp 2000 activeUnavailSys) = false ∧
    throwsError (runOp .pauseOp 0 (recoverSys unavailableStorage 0)) = false ∧
    throwsError (runOp .resumeOp 0 (recoverSys unavailableStorage 0)) = false ∧
    throwsError (runOp .resetOp 0 (recoverSys unavailableStorage 0)) = false ∧
    throwsError (runOp .skipOp 0 (recoverSys unavailableStorage 0)) = false :=
  ⟨rfl, rfl, rfl, rfl, rfl, rfl, rfl, rfl, rfl, rfl⟩

/-! ## C10 — skip() on a paused timer -/

/-- C10: for every active, paused state, `skip()` un-pauses
(`isPaused = false`) and installs a fresh
`endTime = now + nextTotalSeconds*1000`, advancing to the next phase with
`remainingSeconds` and `totalSeconds` set to the next phase duration —
the frozen `remainingSeconds` of the paused phase is discarded. -/
theorem skip_paused_resumes (now : Nat) (s : PomodoroState) (st : Storage)
    (hact : s.isActive = true) (_hp : s.isPaused = true) :
    (skip now s st).1.isPaused = false ∧
    (skip now s st).1.endTime =
      some (now + nextDuration (nextPhase s.phase) s.config * 60 * 1000) ∧
    (skip now s st).1.phase = nextPhase s.phase ∧
    (skip now s st).1.remainingSeconds =
      nextDuration (nextPhase s.phase) s.config * 60 ∧
    (skip now s st).1.totalSeconds =
      nextDuration (nextPhase s.phase) s.config * 60 ∧
    (skip now s st).1.isActive = true := by
  simp [skip, hact]

/-- C10 witness: skipping the started engine paused mid-work at clock
7000 advances to `break`, un-pauses, and counts toward
`7000 + 300*1000`. -/
theorem skip_paused_resumes_witness :
    (skip 7000 pausedUnavailSys.state startedStorage).1.isPaused = false ∧
    (skip 7000 pausedUnavailSys.state startedStorage).1.endTime =
      some (7000 + nextDuration (nextPhase pausedUnavailSys.state.phase)
        pausedUnavailSys.state.config * 60 * 1000) ∧
    (skip 7000 pausedUnavailSys.state startedStorage).1.phase =
      nextPhase pausedUnavailSys.state.phase ∧
    (skip 7000 pausedUnavailSys.state startedStorage).1.remainingSeconds =
      nextDuration (nextPhase pausedUnavailSys.state.phase)
        pausedUnavailSys.state.config * 60 ∧
    (skip 7000 pausedUnavailSys.state startedStorage).1.totalSeconds =
      nextDuration (nextPhase pausedUnavailSys.state.phase)
        pausedUnavailSys.state.config * 60 ∧
    (skip 7000 pausedUnavailSys.state startedStorage).1.isActive = true :=
  skip_paused_resumes 7000 pausedUnavailSys.state startedStorage rfl rfl

/-! ## C8 — skip ignores autoRepeat and is not a completion event -/

/-- C8: for every active work-phase state with `autoRepeat = false`,
`skip()` advances to `break` with `isActive = true` (it does not stop to
idle), sets `totalSeconds = breakDuration*60` and a fresh
`endTime = now + breakDuration*60*1000`; `skip()` is a no-op when
`isActive` is false; and a skip never produces a completion-callback
invocation (only the tick body contains a call site). -/
theorem skip_ignores_autoRepeat (now : Nat) (sys : Sys) :
    (sys.state.isActive = true → sys.state.phase = .work →
      sys.state.config.autoRepeat = false →
      (skip now sys.state sys.storage).1.phase = .«break» ∧
      (skip now sys.state sys.storage).1.isActive = true ∧
      (skip now sys.state sys.storage).1.totalSeconds =
        sys.state.config.breakDuration * 60 ∧
      (skip now sys.state sys.storage).1.endTime =
        some (now + sys.state.config.breakDuration * 60 * 1000)) ∧
    (sys.state.isActive = false →
      skip now sys.state sys.storage = (sys.state, sys.storage)) ∧
    (∀ (r : Sys) (ev : List PomodoroPhase),
      runOp .skipOp now sys = .ok (r, ev) → ev = []) := by
  refine ⟨?_, ?_, ?_⟩
  · intro hact hph har
    simp [skip, hact, hph, nextPhase, nextDuration]
  · intro hin
    simp [skip, hin]
  · intro r ev h
    simp [runOp] at h
    exact h.2

/-- C8 witness: skipping the just-started engine (active `work`,
`autoRepeat = false`) at clock 7000 yields an active `break` of 300
seconds ending at 307000, and produces no completion event. -/
theorem skip_ignores_autoRepeat_witness :
    ((skip 7000 startedState startedStorage).1.phase = .«break» ∧
      (skip 7000 startedState startedStorage).1.isActive = true ∧
      (skip 7000 startedState startedStorage).1.totalSeconds =
        startedState.config.breakDuration * 60 ∧
      (skip 7000 startedState startedStorage).1.endTime =
        some (7000 + startedState.config.breakDuration * 60 * 1000)) ∧
    (∀ (r : Sys) (ev : List PomodoroPhase),
      runOp .skipOp 7000 ⟨startedState, startedStorage, none⟩ = .ok (r, ev) →
      ev = []) := by
  have h := skip_ignores_autoRepeat 7000 ⟨startedState, startedStorage, none⟩
  exact ⟨h.1 rfl rfl rfl, h.2.2⟩

/-! ## C4 — the endTime/isPaused/isActive invariant -/

/-- Shape of a successful `start`: it requires an available store and
produces the fresh active work state and the fully written durable
record. -/
theorem start_ok_shape {config : PomodoroConfig} {now : Nat} {st : Storage}
    {s' : PomodoroState} {st' : Storage}
    (h : start config now st = .ok (s', st')) :
    st.available = true ∧
    s' = { isActive := true, isPaused := false, phase := .work,
           remainingSeconds := config.workDuration * 60,
           totalSeconds := config.workDuration * 60,
           endTime := some (now + config.workDuration * 60 * 1000),
           config := config } ∧
    st' = { available := st.available, pomodoroConfig := some config,
            pomodoroEndTime := some (now + config.workDuration * 60 * 1000),
            pomodoroPhase := some .work,
            pomodoroTotalSeconds := some (config.workDuration * 60) } := by
  by_cases ha : st.available = true
  · refine ⟨ha, ?_⟩
    unfold start StorageService.setPomodoroConfig at h
    simp [ha, StorageService.setPomodoroEndTime, StorageService.setPomodoroPhase,
      StorageService.setPomodoroTotalSeconds] at h
    obtain ⟨h1, h2⟩ := h
    constructor
    · exact h1.symm
    · rw [ha]
      exact h2.symm
  · exfalso
    unfold start StorageService.setPomodoroConfig at h
    simp [ha] at h

/-- The C4 state invariant: `endTime` is `null` exactly when the timer is
paused or not active. -/
def endTimeInvariant (s : PomodoroState) : Prop :=
  s.endTime = none ↔ (s.isPaused = true ∨ s.isActive = false)

/-- The recovery initializer establishes the invariant. -/
theorem recover_endTimeInvariant (st : Storage) (now : Nat) :
    endTimeInvariant (recover st now).1 := by
  unfold recover
  by_cases h1 : (truthyNat (StorageService.getPomodoroEndTime st) &&
      truthyPhase (StorageService.getPomodoroPhase st) &&
      truthyNat (StorageService.getPomodoroTotalSeconds st)) = true
  · by_cases h2 : now < (StorageService.getPomodoroEndTime st).getD 0
    · simp [h1, h2, endTimeInvariant]
    · simp [h1, h2, endTimeInvariant, idleState]
  · simp [h1, endTimeInvariant, idleState]

/-- Operation `pause` preserves the invariant. -/
theorem pause_endTimeInvariant (s : PomodoroState) (st : Storage)
    (hinv : endTimeInvariant s) : endTimeInvariant (pause s st).1 := by
  unfold pause
  by_cases h : (!s.isActive || s.isPaused) = true
  · simpa [h] using hinv
  · simp [h, endTimeInvariant]

/-- Operation `resume` preserves the invariant. -/
theorem resume_endTimeInvariant (now : Nat) (s : PomodoroState) (st : Storage)
    (hinv : endTimeInvariant s) : endTimeInvariant (resume now s st).1 := by
  unfold resume
  by_cases h : (!s.isActive || !s.isPaused) = true
  · simpa [h] using hinv
  · simp at h
    simp [h, endTimeInvariant, h.1]

/-- Operation `reset` establishes the invariant outright. -/
theorem reset_endTimeInvariant (s : PomodoroState) (st : Storage) :
    endTimeInvariant (reset s st).1 := by
  simp [reset, endTimeInvariant]

/-- Operation `skip` preserves the invariant. -/
theorem skip_endTimeInvariant (now : Nat) (s : PomodoroState) (st : Storage)
    (hinv : endTimeInvariant s) : endTimeInvariant (skip now s st).1 := by
  unfold skip
  by_cases h : (!s.isActive) = true
  · simpa [h] using hinv
  · simp at h
    simp [h, endTimeInvariant]

/-- The scheduler tick preserves the invariant through all three of its
branches (countdown, auto-repeat completion, stop-to-idle completion). -/
theorem tick_endTimeInvariant (now : Nat) (cb : Option Unit)
    (s : PomodoroState) (st : Storage)
    (hinv : endTimeInvariant s) : endTimeInvariant (tick now cb s st).1 := by
  unfold tick
  rcases he : s.endTime with _ | e
  · simpa using hinv
  · by_cases hle : e ≤ now
    · by_cases har : s.config.autoRepeat = true
      · simp [he, hle, har, endTimeInvariant]
      · simp [he, hle, har, endTimeInvariant]
    · unfold endTimeInvariant at hinv
      rw [he] at hinv
      simp at hinv
      simp [he, hle, endTimeInvariant, hinv]

/-- Every successful operation preserves the invariant. -/
theorem runOp_preserves_endTimeInvariant {sys sys' : Sys}
    {ev : List PomodoroPhase} (op : EngineOp) (now : Nat)
    (hinv : endTimeInvariant sys.state)
    (hrun : runOp op now sys = .ok (sys', ev)) :
    endTimeInvariant sys'.state := by
  cases op with
  | startOp config =>
    rcases hs : start config now sys.storage with e | p
    · simp [runOp, hs, Except.map] at hrun
    · simp [runOp, hs, Except.map] at hrun
      obtain ⟨hst, hsh, _⟩ := start_ok_shape hs
      rw [← hrun.1]
      simp [hsh, endTimeInvariant]
  | pauseOp =>
    simp [runOp] at hrun
    rw [← hrun.1]
    exact pause_endTimeInvariant _ _ hinv
  | resumeOp =>
    simp [runOp] at hrun
    rw [← hrun.1]
    exact resume_endTimeInvariant _ _ _ hinv
  | resetOp =>
    simp [runOp] at hrun
    rw [← hrun.1]
    exact reset_endTimeInvariant sys.state sys.storage
  | skipOp =>
    simp [runOp] at hrun
    rw [← hrun.1]
    exact skip_endTimeInvariant _ _ _ hinv
  | tickOp =>
    simp [runOp] at hrun
    rw [← hrun.1]
    exact tick_endTimeInvariant _ _ _ _ hinv

/-- C4: in every hook state reachable from construction (over any store
and clock) by any sequence of `start`, `pause`, `resume`, `reset`, `skip`
and scheduler ticks, `endTime` is `null` if and only if the timer is
paused or not active. -/
theorem reachable_endTime_null_iff (sys : Sys) (h : Reachable sys) :
    sys.state.endTime = none ↔
      (sys.state.isPaused = true ∨ sys.state.isActive = false) := by
  induction h with
  | init st now => exact recover_endTimeInvariant st now
  | step op now h hrun ih => exact runOp_preserves_endTimeInvariant op now ih hrun

/-- C4 witness: the invariant holds at the concrete reachable state
obtained by constructing over an empty store at clock 0 and starting the
default config. -/
theorem reachable_endTime_null_iff_witness :
    (Sys.mk startedState startedStorage none).state.endTime = none ↔
      ((Sys.mk startedState startedStorage none).state.isPaused = true ∨
        (Sys.mk startedState startedStorage none).state.isActive = false) :=
  reachable_endTime_null_iff ⟨startedState, startedStorage, none⟩
    (Reachable.step (.startOp DEFAULT_CONFIG) 0
      (Reachable.init emptyStorage 0) (by rfl))

/-! ## C9 — the completion callback -/

/-- No operation ever assigns the completion-callback ref: the hook's
return value `{state, start, pause, resume, reset, skip}` exposes no
registration surface, so in every reachable hook instance
`onCompleteCallbackRef.current` is still its initial `null`. -/
theorem reachable_callback_none (sys : Sys) (h : Reachable sys) :
    sys.callback = none := by
  induction h with
  | init st now => rfl
  | step op now h hrun ih =>
    rename_i src dst evl
    cases op with
    | startOp config =>
      rcases hs : start config now src.storage with e | p
      · simp [runOp, hs, Except.map] at hrun
      · simp [runOp, hs, Except.map] at hrun
        rw [← hrun.1]
        exact ih
    | pauseOp => simp [runOp] at hrun; rw [← hrun.1]; exact ih
    | resumeOp => simp [runOp] at hrun; rw [← hrun.1]; exact ih
    | resetOp => simp [runOp] at hrun; rw [← hrun.1]; exact ih
    | skipOp => simp [runOp] at hrun; rw [← hrun.1]; exact ih
    | tickOp => simp [runOp] at hrun; rw [← hrun.1]; exact ih

/-- The state after the natural (timeout-driven) completion of the
started work phase with `autoRepeat = false`. -/
def completedIdleState : PomodoroState :=
  { isActive := false, isPaused := false, phase := .idle,
    remainingSeconds := 0, totalSeconds := 1500, endTime := none,
    config := DEFAULT_CONFIG }

/-- The store after that natural completion: live-timer keys cleared,
config kept. -/
def clearedStartedStorage : Storage :=
  { available := true, pomodoroConfig := some DEFAULT_CONFIG,
    pomodoroEndTime := none, pomodoroPhase := none,
    pomodoroTotalSeconds := none }

/-- C9 evaluated at a failing input: the hook instance reached by
construction over an empty store followed by `start(DEFAULT_CONFIG)` at
clock 0 undergoes a natural completion at clock 1500000 (the tick finds
`endTime ≤ now` while active and unpaused), yet the operation performs
zero completion-callback invocations — `onCompleteCallbackRef` is never
exposed or assigned, so no consumer can ever observe a completion
event. -/
theorem natural_completion_fires_no_callback :
    Reachable ⟨startedState, startedStorage, none⟩ ∧
    startedState.isActive = true ∧
    startedState.isPaused = false ∧
    startedState.endTime = some 1500000 ∧
    runOp .tickOp 1500000 ⟨startedState, startedStorage, none⟩ =
      .ok (⟨completedIdleState, clearedStartedStorage, none⟩, []) ∧
    completedIdleState.isActive = false ∧
    completedIdleState.phase = .idle := by
  refine ⟨?_, rfl, rfl, rfl, rfl, rfl, rfl⟩
  exact Reachable.step (.startOp DEFAULT_CONFIG) 0
    (Reachable.init emptyStorage 0) (by rfl)

/-! ## C1 — round-trip recovery -/

/-- C1: take any valid config (work duration at least one minute) and any
store on which `start` succeeded at clock `s0`; let the scheduler tick
last run at clock `u` (at most one second before destruction — the
interval cadence is 100ms) and destroy the engine at clock `t`, any
point up to 90% of the work phase (`t ≤ s0 + workDuration*54000` ms).
Reconstructing an engine over the store as the destroyed engine left it
yields identical `phase`, `totalSeconds` and `config`, identical
activity flags, and a `remainingSeconds` within one second of the
pre-destruction value. -/
theorem roundtrip_recovery
    (config : PomodoroConfig) (st : Storage) (s0 u t : Nat)
    (s1 : PomodoroState) (st1 : Storage)
    (hw : 1 ≤ config.workDuration)
    (hstart : start config s0 st = .ok (s1, st1))
    (hu0 : s0 ≤ u) (hut : u ≤ t) (hlag : t ≤ u + 1000)
    (hfrac : t ≤ s0 + config.workDuration * 54000) :
    (recover (tick u none s1 st1).2.1 t).1.phase = (tick u none s1 st1).1.phase ∧
    (recover (tick u none s1 st1).2.1 t).1.totalSeconds =
      (tick u none s1 st1).1.totalSeconds ∧
    (recover (tick u none s1 st1).2.1 t).1.config = (tick u none s1 st1).1.config ∧
    (recover (tick u none s1 st1).2.1 t).1.remainingSeconds ≤
      (tick u none s1 st1).1.remainingSeconds ∧
    (tick u none s1 st1).1.remainingSeconds ≤
      (recover (tick u none s1 st1).2.1 t).1.remainingSeconds + 1 ∧
    (recover (tick u none s1 st1).2.1 t).1.isActive =
      (tick u none s1 st1).1.isActive ∧
    (recover (tick u none s1 st1).2.1 t).1.isPaused =
      (tick u none s1 st1).1.isPaused := by
  obtain ⟨ha, hs1, hst1⟩ := start_ok_shape hstart
  subst hs1
  subst hst1
  have hne : ¬ (s0 + config.workDuration * 60 * 1000 ≤ u) := by omega
  have htlt : t < s0 + config.workDuration * 60 * 1000 := by omega
  have hE0 : ¬ (s0 + config.workDuration * 60 * 1000 = 0) := by omega
  have htot0 : ¬ (config.workDuration * 60 = 0) := by omega
  simp [tick, hne, recover, StorageService.getPomodoroConfig,
    StorageService.getPomodoroEndTime, StorageService.getPomodoroPhase,
    StorageService.getPomodoroTotalSeconds, ha, truthyNat, truthyPhase,
    hE0, htot0, htlt]
  unfold ceilSeconds
  omega

/-- C1 witness: `start(DEFAULT_CONFIG)` at clock 0 on an empty store,
last tick at clock 5000, destruction and reconstruction at clock 5500. -/
theorem roundtrip_recovery_witness :
    (recover (tick 5000 none startedState startedStorage).2.1 5500).1.phase =
      (tick 5000 none startedState startedStorage).1.phase ∧
    (recover (tick 5000 none startedState startedStorage).2.1 5500).1.totalSeconds =
      (tick 5000 none startedState startedStorage).1.totalSeconds ∧
    (recover (tick 5000 none startedState startedStorage).2.1 5500).1.config =
      (tick 5000 none startedState startedStorage).1.config ∧
    (recover (tick 5000 none startedState startedStorage).2.1 5500).1.remainingSeconds ≤
      (tick 5000 none startedState startedStorage).1.remainingSeconds ∧
    (tick 5000 none startedState startedStorage).1.remainingSeconds ≤
      (recover (tick 5000 none startedState startedStorage).2.1 5500).1.remainingSeconds + 1 ∧
    (recover (tick 5000 none startedState startedStorage).2.1 5500).1.isActive =
      (tick 5000 none startedState startedStorage).1.isActive ∧
    (recover (tick 5000 none startedState startedStorage).2.1 5500).1.isPaused =
      (tick 5000 none startedState startedStorage).1.isPaused :=
  roundtrip_recovery DEFAULT_CONFIG emptyStorage 0 5000 5500
    startedState startedStorage (by decide) (by rfl) (by decide) (by decide)
    (by decide) (by decide)
